import Mathlib

/-!
Verification development for the ZappBot resume-search repository
(`app.py`, `tools.py`, `utils.py`).  The Python functions relevant to the
specified behavior are shallowly embedded as executable Lean definitions,
and the spec claims are settled as theorems about those definitions.

Conventions of the embedding:
* Python strings are `String` / `List Char`; only ASCII-relevant behavior of
  `str.lower`, `str.strip`, `str.split` and substring tests is modelled,
  which covers every value appearing in the sources and in the theorems.
* MongoDB queries built by the sources are embedded as the evaluation of the
  constructed filter on a document, clause by clause, following MongoDB's
  documented operator semantics (`$in` on an array path = some element is in
  the list, `$or`/`$and` = disjunction/conjunction, `$convert` with
  `onError`/`onNull`, `$sum`/`$map`, `$toDouble`, `$ifNull`, `$first`).
* Numeric doubles are modelled as `ℚ`; every value involved is exact.
* Network / session effects are passed explicitly: the store is a lookup
  function or a list of documents, the LLM oracle's reply is a parameter.
-/

namespace ZappBot

/-! ### Python string primitives -/

/-- ASCII lower-casing of one character, as `str.lower` acts on ASCII. -/
def lowerChar (c : Char) : Char :=
  if 'A' ≤ c ∧ c ≤ 'Z' then Char.ofNat (c.toNat + 32) else c

/-- `str.lower` (ASCII fragment). -/
def pyLower (s : String) : String := String.mk (s.toList.map lowerChar)

/-- Python's whitespace class used by `str.strip` / `str.split` / `\s`. -/
def isPySpace (c : Char) : Bool :=
  c = ' ' ∨ c = '\t' ∨ c = '\n' ∨ c = '\r' ∨ c = '\x0b' ∨ c = '\x0c'

/-- `str.strip()` with no argument: drop whitespace from both ends. -/
def pyStrip (s : String) : String :=
  String.mk (((s.toList.dropWhile isPySpace).reverse.dropWhile isPySpace).reverse)

/-- Whether `needle` occurs as a contiguous substring of `hay`
(Python's `needle in hay` on strings). -/
def listContainsSub (needle hay : List Char) : Bool :=
  match hay with
  | [] => needle.isEmpty
  | _ :: t => needle.isPrefixOf hay || listContainsSub needle t

/-- Python's `needle in hay` substring test on strings. -/
def pyContains (hay needle : String) : Bool :=
  listContainsSub needle.toList hay.toList

/-- `str.split(sep)` for a one-character separator: keeps empty pieces,
`"".split(sep) = [""]`. -/
def pySplitOn (sep : Char) (s : List Char) : List (List Char) :=
  match s with
  | [] => [[]]
  | c :: t =>
    let rest := pySplitOn sep t
    if c = sep then [] :: rest
    else
      match rest with
      | [] => [[c]]
      | piece :: more => (c :: piece) :: more

/-- `str.split(',')` on a `String`. -/
def pySplitComma (s : String) : List String :=
  (pySplitOn ',' s.toList).map String.mk

/-- Word accumulator for `pySplitWs` (`cur` holds the pending word
reversed). -/
def pySplitWsAux (cur : List Char) : List Char → List String
  | [] => if cur.isEmpty then [] else [String.mk cur.reverse]
  | c :: t =>
    if isPySpace c then
      if cur.isEmpty then pySplitWsAux [] t
      else String.mk cur.reverse :: pySplitWsAux [] t
    else pySplitWsAux (c :: cur) t

/-- `str.split()` with no argument: split on whitespace runs, dropping
empty pieces (so `"  ".split() = []`). -/
def pySplitWs (s : List Char) : List String :=
  pySplitWsAux [] s

/-- `" ".join(words)`. -/
def joinWithSpace (words : List String) : String :=
  match words with
  | [] => ""
  | [w] => w
  | w :: rest => w ++ " " ++ joinWithSpace rest

/-- Python truthiness of an optional string (`None` and `""` are falsy). -/
def truthyStr (o : Option String) : Bool :=
  match o with
  | none => false
  | some s => !s.isEmpty

/-- Python truthiness of an optional list (`None` and `[]` are falsy). -/
def truthyList {α : Type} (o : Option (List α)) : Bool :=
  match o with
  | none => false
  | some l => !l.isEmpty

/-! ### Vocabulary normalizer (`app.py` lines 106-140)

Python dicts with distinct keys are modelled as association lists;
`dict.get k default` is first-match lookup with a fallback. -/

/-- `table.get(key, [])` over an association-list dict. -/
def tableGet (table : List (String × List String)) (key : String) : List String :=
  match table.find? (fun kv => kv.1 = key) with
  | some kv => kv.2
  | none => []

/-- `SKILL_VARIANTS` from `app.py`. -/
def SKILL_VARIANTS : List (String × List String) :=
  [ ("sql", ["sql", "mysql", "postgresql", "mariadb", "t-sql", "microsoft sql server"]),
    ("python", ["python"]),
    ("javascript", ["javascript", "js", "java script"]),
    ("c#", ["c#", "c sharp", "csharp"]),
    ("html", ["html", "hypertext markup language"]) ]

/-- `TITLE_VARIANTS` from `app.py`. -/
def TITLE_VARIANTS : List (String × List String) :=
  [ ("software developer",
      ["software developer", "software dev", "softwaredeveloper", "software engineer"]),
    ("backend developer",
      ["backend developer", "backend dev", "back-end developer", "server-side developer"]),
    ("frontend developer",
      ["frontend developer", "frontend dev", "front-end developer"]) ]

/-- `expand` from `app.py`:
for each input term `v`, look up `v.strip().lower()` in the table and union
in its alias list, and add the original `v` itself.  Python collects the
results in a `set` and returns `list(out)`; the embedding returns the terms
in accumulation order, which has exactly the same membership (every
downstream use is a membership test via a Mongo `$in` list). -/
def expand (values : List String) (table : List (String × List String)) : List String :=
  values.foldl (fun out v => out ++ tableGet table (pyLower (pyStrip v)) ++ [v]) []

/-! ### Candidate records and the compiled store filters -/

/-- A stored duration scalar: `jobExperiences[].duration` is a
numeric-or-string-or-null scalar in the store. -/
inductive DurVal : Type
  | str (s : String)
  | num (q : ℚ)
  | null
deriving DecidableEq, Repr

/-- One entry of a record's `jobExperiences` array. -/
structure JobExperience where
  title : String
  duration : DurVal
deriving DecidableEq, Repr

/-- A candidate record as filtered/returned by `query_db` (fields not read
by the embedded code paths are omitted; `totalExperience` is `none` when the
stored field is missing or null, in which case a `$gte`/`$lte` comparison
against a number does not match it). -/
structure Resume where
  resumeId : String
  country : String
  totalExperience : Option ℚ
  jobExperiences : List JobExperience
  skills : List String
  keywords : List String
deriving DecidableEq, Repr

/-- Parse a decimal string the way Mongo's `$convert`-to-double accepts the
plain decimal literals occurring in this data model: optional sign, digits,
optional fractional digits.  Anything else fails (and is then routed through
`onError`).  Exponent and other exotic forms are outside the model. -/
def parseDecimal (s : String) : Option ℚ :=
  let l := s.toList
  let (sign, body) :=
    match l with
    | '-' :: rest => ((-1 : ℚ), rest)
    | '+' :: rest => ((1 : ℚ), rest)
    | _ => ((1 : ℚ), l)
  let intPart := body.takeWhile Char.isDigit
  let rest := body.drop intPart.length
  if intPart.isEmpty then none
  else
    let intVal : ℚ := intPart.foldl (fun acc c => acc * 10 + (c.toNat - '0'.toNat : ℕ)) 0
    match rest with
    | [] => some (sign * intVal)
    | '.' :: fracChars =>
      if fracChars.all Char.isDigit ∧ !fracChars.isEmpty then
        let fracVal : ℚ := fracChars.foldl (fun acc c => acc * 10 + (c.toNat - '0'.toNat : ℕ)) 0
        some (sign * (intVal + fracVal / (10 : ℚ) ^ fracChars.length))
      else none
    | _ => none

/-- Mongo `{"$convert": {..., "to": "double", "onError": 0, "onNull": 0}}`
applied to a present scalar: numbers pass through, strings parse as
decimals with parse failure routed to `onError` 0, null routed to `onNull`
0. -/
def convertDuration : DurVal → ℚ
  | .num q => q
  | .str s => (parseDecimal s).getD 0
  | .null => 0

/-- Mongo `$convert` (same `onError`/`onNull` 0) on a possibly-missing
input: `onNull` applies to a missing input as well as to null. -/
def convertDurationOpt : Option DurVal → ℚ
  | none => 0
  | some v => convertDuration v

/-- Mongo `{"$ifNull": [x, "0"]}` on a present scalar: null becomes the
string literal "0" (a missing `duration` field would take the same
branch). -/
def ifNullZeroStr : DurVal → DurVal
  | .null => .str "0"
  | v => v

/-- The summation clause of `search_resumes` in `app1.py` (lines 117-138):
`$sum` over a `$map` of the `jobExperiences` array whose body converts the
map variable's duration,
`{"$convert": {"input": {"$ifNull": ["$$job.duration", "0"]}, "to":
"double", "onError": 0, "onNull": 0}}` — the correctly-written
(double-dollar `$$job`) total of all job durations, tolerant of
non-numeric and null values. -/
def totalDurations (ds : List DurVal) : ℚ :=
  (ds.map (fun d => convertDuration (ifNullZeroStr d))).sum

/-- Resolution of the single-dollar path `"$job.duration"` written in the
`$map` body of `tools.py`'s experience clauses (lines 95 and 124): a
single-dollar path is a field path read off the current document (the map
variable declared by `"as": "job"` would be referenced as `$$job`), and a
resume document has no `job` field, so the path is missing for every array
element. -/
def jobFieldDuration (_r : Resume) : Option DurVal := none

/-- The `$sum`/`$map` fallback of `tools.py`'s experience clauses as
actually written: one `$convert` (with `onError`/`onNull` 0) of the
missing `"$job.duration"` field path per `jobExperiences` element — hence
a sum of zeros, never the sum of the durations. -/
def sumMapDurationsTools (r : Resume) : ℚ :=
  (r.jobExperiences.map (fun _job => convertDurationOpt (jobFieldDuration r))).sum

/-- Evaluation of the min-experience condition appended by `tools.py`
`query_db` (lines 81-108): `{"$or": [{"totalExperience": {"$gte": m}},
{"$expr": {"$gte": [sumMap, m]}}]}` with the `$map` body reading the
single-dollar `"$job.duration"` path.  A missing/null `totalExperience`
does not satisfy the `$gte` branch. -/
def evalMinExpTools (m : ℚ) (r : Resume) : Bool :=
  (match r.totalExperience with
   | some q => m ≤ q
   | none => false)
  || (m ≤ sumMapDurationsTools r)

/-- Evaluation of the max-experience condition appended by `tools.py`
`query_db` (lines 110-137), symmetric with `$lte` and the same
single-dollar `$map` body. -/
def evalMaxExpTools (m : ℚ) (r : Resume) : Bool :=
  (match r.totalExperience with
   | some q => q ≤ m
   | none => false)
  || (sumMapDurationsTools r ≤ m)

/-- The min-experience condition of `app1.py`'s `search_resumes` (lines
116-138): the correctly-summed total of all job durations compared with
`$gte` against the bound. -/
def evalMinExpApp1 (m : ℚ) (r : Resume) : Bool :=
  m ≤ totalDurations (r.jobExperiences.map (·.duration))

/-- Evaluation of the min-experience condition appended by `app.py`
`query_db` (lines 212-222):
`{"$expr": {"$gte": [{"$toDouble": {"$ifNull": [{"$first": "$jobExperiences.duration"}, "0"]}}, m]}}`.
`"$jobExperiences.duration"` is the array of duration values, `$first`
takes its head (missing on an empty array), `$ifNull` substitutes the
string `"0"` for missing/null, and `$toDouble` has no `onError`, so a
non-numeric string aborts the aggregation — modelled as `Except.error`. -/
def evalMinExpApp (m : ℚ) (r : Resume) : Except Unit Bool :=
  let firstDur : DurVal :=
    match (r.jobExperiences.map (·.duration)).head? with
    | none => DurVal.str "0"
    | some DurVal.null => DurVal.str "0"
    | some v => v
  match firstDur with
  | .num q => .ok (m ≤ q)
  | .str s =>
    match parseDecimal s with
    | some q => .ok (m ≤ q)
    | none => .error ()
  | .null => .error ()

/-- The per-title clauses built by `tools.py` `query_db` (lines 67-77):
one alias list per requested title. -/
def titleClausesTools (job_titles : List String) : List (List String) :=
  job_titles.map (fun t => expand [t] TITLE_VARIANTS)

/-- Mongo evaluation of one `{"jobExperiences.title": {"$in": aliases}}`
clause: some array element's `title` is in the list. -/
def evalTitleClause (r : Resume) (aliases : List String) : Bool :=
  r.jobExperiences.any (fun j => aliases.contains j.title)

/-- `tools.py`'s compiled title filter: the per-title clauses are appended
to the query's `$and` list, so all must hold. -/
def evalTitleFilterTools (r : Resume) (job_titles : List String) : Bool :=
  (titleClausesTools job_titles).all (evalTitleClause r)

/-- `app.py` `query_db` (lines 206-209) instead appends the single clause
`{"jobExperiences.title": {"$in": expand(job_titles, TITLE_VARIANTS)}}`
with every requested title expanded into one list. -/
def evalTitleFilterApp (r : Resume) (job_titles : List String) : Bool :=
  evalTitleClause r (expand job_titles TITLE_VARIANTS)

/-! ### Oracle re-ranking (`app.py` lines 234-235, `tools.py` lines 204-220) -/

/-- `best_resumes = [r for r in candidates if r["resumeId"] in best_ids]`,
the sole use of the scoring oracle's identifier list. -/
def bestResumes (candidates : List Resume) (best_ids : List String) : List Resume :=
  candidates.filter (fun r => best_ids.contains r.resumeId)

/-- What `json.loads(chat.choices[0].message.content)` followed by
`content.get("top_resume_ids", [])` can yield: the reply is unparsable
(raises), or parses with the key absent (default `[]`), or parses with an
identifier list. -/
inductive OracleReply : Type
  | unparsable
  | parsed (top_resume_ids : Option (List String))
deriving DecidableEq, Repr

/-- Outcome of `query_db` after the candidate pool is fixed: either the
success dict (its `results` list) or the `{"error": ...}` dict. -/
inductive QueryOutcome : Type
  | ok (results : List Resume)
  | errorResult
deriving DecidableEq, Repr

/-- The post-oracle tail of `query_db` in `tools.py` (lines 204-220):
an unparsable reply is caught by `except` and returned as
`{"error": "Error parsing LLM response: ..."}`; otherwise the filtered
`best_resumes` are returned.  (`app.py` lines 234-242 behave identically:
`score_resumes` raises on unparsable JSON and the outer `except` returns
`{"error": ...}`.) -/
def handleOracleReply (reply : OracleReply) (candidates : List Resume) : QueryOutcome :=
  match reply with
  | .unparsable => .errorResult
  | .parsed ids => .ok (bestResumes candidates (ids.getD []))

/-! ### `get_job_match_counts` (`tools.py` lines 245-269, `app.py` 264-285) -/

/-- A document of the `resume_matches` collection as projected by
`{"matches.jobId": 1}`: the `matches` array (element count preserved by the
projection), `none` when the field is absent. -/
structure MatchDoc where
  matchesArr : Option (List String)
deriving DecidableEq, Repr

/-- `doc.get("matches", []) if doc else []` followed by `len`. -/
def jobsMatchedOf (store : String → Option MatchDoc) (rid : String) : ℕ :=
  match store rid with
  | none => 0
  | some d => (d.matchesArr.getD []).length

/-- The loop of `get_job_match_counts`: one `{"resumeId": rid,
"jobsMatched": len(jobs)}` entry appended per requested identifier, in
input order; `results_count = len(results)`. -/
def get_job_match_counts (store : String → Option MatchDoc) (resume_ids : List String) :
    List (String × ℕ) :=
  resume_ids.map (fun rid => (rid, jobsMatchedOf store rid))

/-! ### `get_resume_id_by_name` (`tools.py` lines 273-322, `app.py` 288-316) -/

/-- A store document as projected by
`{"resumeId": 1, "name": 1, "fullName": 1}`. -/
structure StoreNameDoc where
  name : Option String
  fullName : Option String
  resumeId : Option String
deriving DecidableEq, Repr

/-- Result shape of `get_resume_id_by_name`. -/
inductive NameLookup : Type
  | found (name resumeId : String)
  | notFound
  | noSessionIds
deriving DecidableEq, Repr

/-- `' '.join(name.lower().split())`: the name normalization of both
variants. -/
def normName (name : String) : String :=
  joinWithSpace (pySplitWs (pyLower name).toList)

/-- First session-index entry whose lower-cased key equals the normalized
name (the exact-match pass of `tools.py`, lines 285-292; the membership
pre-check plus inner loop return exactly the first such entry). -/
def firstExact (name_norm : String) (idx : List (String × String)) :
    Option (String × String) :=
  idx.find? (fun kv => pyLower kv.1 = name_norm)

/-- First session-index entry whose lower-cased key contains the normalized
name as a substring (the partial-match pass of `tools.py`, lines 294-301). -/
def firstSub (name_norm : String) (idx : List (String × String)) :
    Option (String × String) :=
  idx.find? (fun kv => pyContains (pyLower kv.1) name_norm)

/-- `find_one` with `{"$or": [{"name": {"$regex": name, "$options": "i"}},
{"fullName": {"$regex": name, "$options": "i"}}]}`: first document whose
`name` or `fullName` matches the pattern case-insensitively.  Modelled for
patterns without regex metacharacters (every name reaching this query in
the theorems is plain text), where `$regex` is substring containment; a
missing field matches nothing. -/
def storeFindByName (name : String) (store : List StoreNameDoc) : Option StoreNameDoc :=
  store.find? (fun d =>
    (match d.name with
     | some n => pyContains (pyLower n) (pyLower name)
     | none => false)
    || (match d.fullName with
        | some n => pyContains (pyLower n) (pyLower name)
        | none => false))

/-- The store-fallback tail shared by both variants (`tools.py` lines
303-320): if a document with a truthy `resumeId` is found, return it with
`doc.get("name") or doc.get("fullName") or name` as display name; otherwise
the not-found dict. -/
def storeNameResult (name : String) (store : List StoreNameDoc) : NameLookup :=
  match storeFindByName name store with
  | some d =>
    if truthyStr d.resumeId then
      let display :=
        match d.name with
        | some n => if n.isEmpty then (match d.fullName with
            | some f => if f.isEmpty then name else f
            | none => name) else n
        | none =>
          match d.fullName with
          | some f => if f.isEmpty then name else f
          | none => name
      .found display (d.resumeId.getD "")
    else .notFound
  | none => .notFound

/-- `tools.py`'s `get_resume_id_by_name`: session check, exact pass over
the session index, then substring pass, then store fallback. -/
def getResumeIdByNameTools (hasSessionIds : Bool) (idx : List (String × String))
    (store : List StoreNameDoc) (name : String) : NameLookup :=
  if !hasSessionIds then .noSessionIds
  else
    let name_norm := normName name
    match firstExact name_norm idx with
    | some kv => .found kv.1 kv.2
    | none =>
      match firstSub name_norm idx with
      | some kv => .found kv.1 kv.2
      | none => storeNameResult name store

/-- `app.py`'s `get_resume_id_by_name` (lines 288-316): one pass over the
session index testing `name_norm == k.lower() or name_norm in k.lower()`,
then the same store fallback. -/
def getResumeIdByNameApp (hasSessionIds : Bool) (idx : List (String × String))
    (store : List StoreNameDoc) (name : String) : NameLookup :=
  if !hasSessionIds then .noSessionIds
  else
    let name_norm := normName name
    match idx.find? (fun kv =>
        pyLower kv.1 = name_norm || pyContains (pyLower kv.1) name_norm) with
    | some kv => .found kv.1 kv.2
    | none => storeNameResult name store

/-! ### `attach_hidden_resume_ids` (`utils.py` lines 207-234, `app.py` 383-396) -/

/-- A parsed-listing record as the backfill helpers receive it.  The
Python records are dicts built by `process_response`, so the display fields
are always present; `res.get("email")`, `res.get("contactNo")` and
`res.get("resumeId")` are falsy for an empty string, modelled together with
the missing-key case by `""` / `none`. -/
structure ParsedRec where
  name : String
  email : String
  contactNo : String
  location : String
  experience : List String
  skills : List String
  resumeId : Option String
  keywords : List String
deriving DecidableEq, Repr

/-- A store document as projected by `{"resumeId": 1, "keywords": 1}`. -/
structure HiddenDoc where
  resumeId : Option String
  keywords : Option (List String)
deriving DecidableEq, Repr

/-- The per-record body of `attach_hidden_resume_ids` in `utils.py`
(lines 222-234): if the record's `email` and `contactNo` are truthy, look
the pair up; on a hit, overwrite `resumeId` when the document's `resumeId`
is truthy and `keywords` when the document's `keywords` is truthy.  There
is no check that the record lacked a `resumeId`. -/
def attachOneUtils (store : String → String → Option HiddenDoc) (res : ParsedRec) :
    ParsedRec :=
  if !res.email.isEmpty && !res.contactNo.isEmpty then
    match store res.email res.contactNo with
    | some doc =>
      let r1 := if truthyStr doc.resumeId then { res with resumeId := doc.resumeId } else res
      if truthyList doc.keywords then { r1 with keywords := doc.keywords.getD [] } else r1
    | none => res
  else res

/-- `utils.py`'s `attach_hidden_resume_ids`, as the list transformation the
in-place mutation amounts to (early return on an empty list). -/
def attachHiddenResumeIdsUtils (store : String → String → Option HiddenDoc)
    (resume_list : List ParsedRec) : List ParsedRec :=
  if resume_list.isEmpty then resume_list
  else resume_list.map (attachOneUtils store)

/-- The per-record body of `attach_hidden_resume_ids` in `app.py`
(lines 388-396): records whose `resumeId` is already truthy are skipped
(`continue`); otherwise the `(email, contactNo)` pair is looked up with no
truthiness guard and only `resumeId` is copied — never `keywords`. -/
def attachOneApp (store : String → String → Option HiddenDoc) (res : ParsedRec) :
    ParsedRec :=
  if truthyStr res.resumeId then res
  else
    match store res.email res.contactNo with
    | some doc =>
      if truthyStr doc.resumeId then { res with resumeId := doc.resumeId } else res
    | none => res

/-- `app.py`'s `attach_hidden_resume_ids`. -/
def attachHiddenResumeIdsApp (store : String → String → Option HiddenDoc)
    (resume_list : List ParsedRec) : List ParsedRec :=
  if resume_list.isEmpty then resume_list
  else resume_list.map (attachOneApp store)

/-! ### A continuation-passing matcher for the listing regexes

The two listing grammars and the intro/conclusion extraction of
`process_response` (`utils.py` lines 134-205) are `re` patterns built from
literals, character classes with `*`/`+` (greedy) or `*?` (lazy), optional
groups and the `$` anchor.  Each construct is embedded by a combinator that
enumerates the candidate splits in exactly the backtracking priority order
of Python's `re` engine (greedy: longest first; lazy: shortest first;
optional: present first) and commits to the first success of the
continuation, which reproduces the engine's leftmost match and its group
captures for patterns of this shape. -/

/-- Match one character of a class. -/
def mChar {α : Type} (p : Char → Bool) (s : List Char) (k : List Char → Option α) :
    Option α :=
  match s with
  | [] => none
  | c :: t => if p c then k t else none

/-- Match a literal character sequence. -/
def mLit {α : Type} (lit : List Char) (s : List Char) (k : List Char → Option α) :
    Option α :=
  if lit.isPrefixOf s then k (s.drop lit.length) else none

/-- Match a literal case-insensitively (`lit` given lower-cased), for the
`re.IGNORECASE` grammar. -/
def mLitCI {α : Type} (lit : List Char) (s : List Char) (k : List Char → Option α) :
    Option α :=
  if (s.take lit.length).map lowerChar = lit ∧ lit.length ≤ s.length then
    k (s.drop lit.length)
  else none

/-- Greedy `class*`: hand the continuation every split, longest first,
with the consumed characters. -/
def mStarG {α : Type} (p : Char → Bool) (s : List Char)
    (k : List Char → List Char → Option α) : Option α :=
  let n := (s.takeWhile p).length
  (List.range (n + 1)).findSome? (fun j => k (s.take (n - j)) (s.drop (n - j)))

/-- Lazy `class*?`: every split, shortest first. -/
def mStarL {α : Type} (p : Char → Bool) (s : List Char)
    (k : List Char → List Char → Option α) : Option α :=
  let n := (s.takeWhile p).length
  (List.range (n + 1)).findSome? (fun j => k (s.take j) (s.drop j))

/-- Greedy `class+`: one mandatory character, then greedy star. -/
def mPlusG {α : Type} (p : Char → Bool) (s : List Char)
    (k : List Char → List Char → Option α) : Option α :=
  match s with
  | [] => none
  | c :: t => if p c then mStarG p t (fun taken rest => k (c :: taken) rest) else none

/-- Greedy `(?:...)?`: try the group present, then absent. -/
def mOptG {α : Type} (inner : List Char → (List Char → Option α) → Option α)
    (s : List Char) (k : List Char → Option α) : Option α :=
  match inner s k with
  | some a => some a
  | none => k s

/-- Capture a composite group: the characters its body consumed. -/
def mGroup {α : Type} (inner : ∀ {β : Type}, List Char → (List Char → Option β) → Option β)
    (s : List Char) (k : List Char → List Char → Option α) : Option α :=
  inner s (fun rest => k (s.take (s.length - rest.length)) rest)

/-- ASCII letter: `[A-Z]` and `[a-z]` under `re.IGNORECASE`. -/
def asciiLetter (c : Char) : Bool :=
  ('A' ≤ c ∧ c ≤ 'Z') ∨ ('a' ≤ c ∧ c ≤ 'z')

/-- `[A-Z]` without `IGNORECASE`. -/
def upperAZ (c : Char) : Bool := 'A' ≤ c ∧ c ≤ 'Z'

/-- `[a-z]` without `IGNORECASE`. -/
def lowerAZ (c : Char) : Bool := 'a' ≤ c ∧ c ≤ 'z'

/-- `[^\n]`. -/
def notNl (c : Char) : Bool := c ≠ '\n'

/-- `.` under `re.DOTALL`. -/
def anyC (_ : Char) : Bool := true

/-- `[^*]`. -/
def notStar (c : Char) : Bool := c ≠ '*'

/-- The six captured fields of one listing-grammar match. -/
structure RawMatch where
  name : List Char
  email : List Char
  contact : List Char
  location : List Char
  experience : List Char
  skills : List Char
deriving DecidableEq, Repr

/-- The name group of the plain block grammar,
`[A-Z][a-z]+ (?:[A-Z][a-z]+ )?(?:[A-Z][a-z]+)?` under `IGNORECASE`. -/
def nameGroupBody {β : Type} (s : List Char) (k : List Char → Option β) : Option β :=
  mChar asciiLetter s (fun r1 =>
    mPlusG asciiLetter r1 (fun _ r2 =>
      mLit [' '] r2 (fun r3 =>
        mOptG (fun s4 k4 =>
            mChar asciiLetter s4 (fun r5 =>
              mPlusG asciiLetter r5 (fun _ r6 =>
                mLit [' '] r6 k4)))
          r3 (fun r7 =>
            mOptG (fun s8 k8 =>
                mChar asciiLetter s8 (fun r9 =>
                  mPlusG asciiLetter r9 (fun _ r10 => k8 r10)))
              r7 k))))

/-- One attempted match of the plain block grammar (`resume_pattern` of
`utils.py` line 157, compiled with `re.MULTILINE | re.IGNORECASE`) at the
start of `s`, returning the six captures and the rest of the input. -/
def matchP1At (s : List Char) : Option (RawMatch × List Char) :=
  mGroup (fun {_} s k => nameGroupBody s k) s (fun g1 r1 =>
    mStarG isPySpace r1 (fun _ r2 =>
      mLit ['\n'] r2 (fun r3 =>
        mStarG isPySpace r3 (fun _ r4 =>
          mLitCI "email:".toList r4 (fun r5 =>
            mStarG isPySpace r5 (fun _ r6 =>
              mPlusG notNl r6 (fun g2 r7 =>
                mStarG isPySpace r7 (fun _ r8 =>
                  mLit ['\n'] r8 (fun r9 =>
                    mLitCI "contact no:".toList r9 (fun r10 =>
                      mStarG isPySpace r10 (fun _ r11 =>
                        mPlusG notNl r11 (fun g3 r12 =>
                          mStarG isPySpace r12 (fun _ r13 =>
                            mLit ['\n'] r13 (fun r14 =>
                              mLitCI "location:".toList r14 (fun r15 =>
                                mStarG isPySpace r15 (fun _ r16 =>
                                  mPlusG notNl r16 (fun g4 r17 =>
                                    mStarG isPySpace r17 (fun _ r18 =>
                                      mLit ['\n'] r18 (fun r19 =>
                                        mLitCI "experience:".toList r19 (fun r20 =>
                                          mStarG isPySpace r20 (fun _ r21 =>
                                            mPlusG notNl r21 (fun g5 r22 =>
                                              mStarG isPySpace r22 (fun _ r23 =>
                                                mLit ['\n'] r23 (fun r24 =>
                                                  mLitCI "skills:".toList r24 (fun r25 =>
                                                    mStarG isPySpace r25 (fun _ r26 =>
                                                      mPlusG notNl r26 (fun g6 r27 =>
                                                        some (⟨g1, g2, g3, g4, g5, g6⟩,
                                                          r27))))))))))))))))))))))))))))

/-- One field line of the numbered/emphasized grammar:
`\s*\n\s*-\s+\*\*LABEL\*\*\s+([^\n]+)` (case-sensitive). -/
def p2FieldLine {β : Type} (label : List Char) (s : List Char)
    (k : List Char → List Char → Option β) : Option β :=
  mStarG isPySpace s (fun _ r1 =>
    mLit ['\n'] r1 (fun r2 =>
      mStarG isPySpace r2 (fun _ r3 =>
        mLit ['-'] r3 (fun r4 =>
          mPlusG isPySpace r4 (fun _ r5 =>
            mLit ("**".toList ++ label ++ "**".toList) r5 (fun r6 =>
              mPlusG isPySpace r6 (fun _ r7 =>
                mPlusG notNl r7 k)))))))

/-- One attempted match of the numbered/emphasized grammar (the second
`resume_pattern` of `utils.py` lines 162-163, compiled with `re.MULTILINE`
only) at the start of `s`. -/
def matchP2At (s : List Char) : Option (RawMatch × List Char) :=
  mPlusG Char.isDigit s (fun _ r1 =>
    mLit ['.'] r1 (fun r2 =>
      mPlusG isPySpace r2 (fun _ r3 =>
        mLit "**".toList r3 (fun r4 =>
          mPlusG notStar r4 (fun g1 r5 =>
            mLit "**".toList r5 (fun r6 =>
              p2FieldLine "Email:".toList r6 (fun g2 r7 =>
                p2FieldLine "Contact No:".toList r7 (fun g3 r8 =>
                  p2FieldLine "Location:".toList r8 (fun g4 r9 =>
                    p2FieldLine "Experience:".toList r9 (fun g5 r10 =>
                      p2FieldLine "Skills:".toList r10 (fun g6 r11 =>
                        some (⟨g1, g2, g3, g4, g5, g6⟩, r11))))))))))))

/-- `re.findall` scan, structurally recursive on a fuel bound: at each
position attempt the pattern; on a match, emit its groups and continue
after the matched span.  Every recursive call shortens the scanned list
(both patterns consume at least one character, and the guard re-checks it),
so fuel `length + 1` never runs out and the scan equals the unbounded
left-to-right `findall`. -/
def findAllFuel (m : List Char → Option (RawMatch × List Char)) :
    ℕ → List Char → List RawMatch
  | 0, _ => []
  | _ + 1, [] => []
  | fuel + 1, c :: t =>
    match m (c :: t) with
    | none => findAllFuel m fuel t
    | some (r, rest) =>
      if rest.length < t.length + 1 then r :: findAllFuel m fuel rest
      else r :: findAllFuel m fuel t

/-- `re.findall` over an input. -/
def findAllAux (m : List Char → Option (RawMatch × List Char)) (s : List Char) :
    List RawMatch :=
  findAllFuel m (s.length + 1) s

/-- The intro pattern `^(.*?)\n\n([A-Z][a-z]+.*?)\n\nEmail:` searched with
`re.DOTALL`: `^` without `MULTILINE` anchors the match at position 0, so
`re.search` reduces to one attempt there; the first (lazy) group is
returned. -/
def introGroup1 (s : List Char) : Option (List Char) :=
  mStarL anyC s (fun g1 r1 =>
    mLit "\n\n".toList r1 (fun r2 =>
      mChar upperAZ r2 (fun r3 =>
        mPlusG lowerAZ r3 (fun _ r4 =>
          mStarL anyC r4 (fun _ r5 =>
            mLit "\n\nEmail:".toList r5 (fun _ => some g1))))))

/-- One attempt of the conclusion pattern `(These candidates.*?)\s*$` with
`re.DOTALL` (no `MULTILINE`): `$` accepts the end of input or a position
just before a final newline. -/
def conclMatchAt (s : List Char) : Option (List Char) :=
  mGroup (fun {_} s2 k =>
      mLit "These candidates".toList s2 (fun r =>
        mStarL anyC r (fun _ rest => k rest)))
    s (fun g r1 =>
      mStarG isPySpace r1 (fun _ r2 =>
        if r2.isEmpty || r2 = ['\n'] then some g else none))

/-- `re.search` scan for the conclusion pattern: first starting position,
left to right, at which the pattern matches (the pattern needs at least one
character, so the final empty position never matches). -/
def conclSearch : List Char → Option (List Char)
  | [] => none
  | s@(_ :: t) =>
    match conclMatchAt s with
    | some g => some g
    | none => conclSearch t

/-! ### `process_response` (`utils.py` lines 134-205) -/

/-- The structured result of `process_response`: the Python dict has the
five listing keys when the marker test passes, and only
`is_resume_response` (false) plus `full_text` otherwise. -/
inductive ProcessedResponse : Type
  | listing (intro : String) (resumes : List ParsedRec) (conclusion : String)
      (full : String)
  | notListing (full : String)
deriving DecidableEq, Repr

/-- The detection gate of `process_response`: the literal markers
`"Here are some"`, an `Experience:`/`experience:` label and a
`Skills:`/`skills:` label must all occur in the text. -/
def markersHold (text : String) : Bool :=
  pyContains text "Here are some"
    && (pyContains text "Experience:" || pyContains text "experience:")
    && (pyContains text "Skills:" || pyContains text "skills:")

/-- `intro_match.group(1).strip()` when the intro pattern matched, else
`""`. -/
def introTextOf (text : String) : String :=
  match introGroup1 text.toList with
  | some g => pyStrip (String.mk g)
  | none => ""

/-- `conclusion_match.group(1).strip()` when the conclusion pattern
matched, else `""`. -/
def conclusionTextOf (text : String) : String :=
  match conclSearch text.toList with
  | some g => pyStrip (String.mk g)
  | none => ""

/-- `matches`: the plain block grammar's findall, falling back to the
numbered grammar when it produced nothing. -/
def listingMatches (text : String) : List RawMatch :=
  let m1 := findAllAux matchP1At text.toList
  if m1.isEmpty then findAllAux matchP2At text.toList else m1

/-- Build one structured resume from a grammar match: fields stripped,
`experience` and `skills` split on commas with each entry stripped,
`keywords` initialized empty (and no `resumeId` key). -/
def rawToParsed (m : RawMatch) : ParsedRec :=
  { name := pyStrip (String.mk m.name)
    email := pyStrip (String.mk m.email)
    contactNo := pyStrip (String.mk m.contact)
    location := pyStrip (String.mk m.location)
    experience := (pySplitComma (String.mk m.experience)).map pyStrip
    skills := (pySplitComma (String.mk m.skills)).map pyStrip
    resumeId := none
    keywords := [] }

/-- `process_response` from `utils.py`: if the markers hold, a listing
result with intro, grammar matches and conclusion (full text kept);
otherwise a non-listing result carrying the full text (`app.py` lines
329-380 are the same logic without the `keywords` initialization). -/
def process_response (text : String) : ProcessedResponse :=
  if markersHold text then
    .listing (introTextOf text) ((listingMatches text).map rawToParsed)
      (conclusionTextOf text) text
  else .notListing text

/-! ### Concrete example data used by counterexamples and witnesses -/

/-- A minimal candidate record with a given identifier. -/
def mkRes (id : String) : Resume :=
  { resumeId := id, country := "", totalExperience := none,
    jobExperiences := [], skills := [], keywords := [] }

/-- Record whose job durations are the strings "1" and "2" (sum 3, first
element 1): separates the summed filter from the first-element filter. -/
def recDur12 : Resume :=
  { resumeId := "r0", country := "", totalExperience := none,
    jobExperiences := [{ title := "dev", duration := DurVal.str "1" },
                       { title := "dev", duration := DurVal.str "2" }],
    skills := [], keywords := [] }

/-- Record whose job durations are ["2", "bad", null] and whose stored
`totalExperience` is missing — the tolerant-summation example of the
claim. -/
def recBad2 : Resume :=
  { resumeId := "rb", country := "", totalExperience := none,
    jobExperiences := [{ title := "dev", duration := DurVal.str "2" },
                       { title := "dev", duration := DurVal.str "bad" },
                       { title := "dev", duration := DurVal.null }],
    skills := [], keywords := [] }

/-- Record whose first job duration is the non-numeric string "bad". -/
def recBadFirst : Resume :=
  { resumeId := "rf", country := "", totalExperience := none,
    jobExperiences := [{ title := "dev", duration := DurVal.str "bad" }],
    skills := [], keywords := [] }

/-- Record with a stored `totalExperience` of 5. -/
def recTot5 : Resume :=
  { resumeId := "rt", country := "", totalExperience := some 5,
    jobExperiences := [{ title := "dev", duration := DurVal.str "1" }],
    skills := [], keywords := [] }

/-- Record holding only the title "backend developer". -/
def recBackendOnly : Resume :=
  { resumeId := "r0", country := "", totalExperience := none,
    jobExperiences := [{ title := "backend developer", duration := DurVal.null }],
    skills := [], keywords := [] }

/-- Marker-bearing text that neither listing grammar matches. -/
def exMarkerText : String :=
  "Here are some matches. Experience: solid. Skills: many."

/-- A parsed record that already carries a resumeId. -/
def exRecWithId : ParsedRec :=
  { name := "Ann Bee", email := "a@x.com", contactNo := "555",
    location := "Oslo", experience := ["Dev"], skills := ["sql"],
    resumeId := some "old", keywords := [] }

/-- A store for the backfill examples: exactly one document under the
natural key ("a@x.com", "555"). -/
def exHiddenStore : String → String → Option HiddenDoc :=
  fun e p => if e = "a@x.com" ∧ p = "555" then
    some { resumeId := some "new", keywords := some ["kw1"] } else none

/-- Session name index whose first key matches "john" only as a substring
and whose second key matches exactly. -/
def exNameIdx : List (String × String) := [("Johnny Smith", "r2"), ("John", "r1")]

end ZappBot

namespace ZappBot

/-! ### Helper lemmas -/

/-- Unfolding of `expand` on a single term. -/
theorem expand_single (t : String) (table : List (String × List String)) :
    expand [t] table = tableGet table (pyLower (pyStrip t)) ++ [t] := by
  simp [expand]

/-- Membership through the accumulating fold of `expand`. -/
theorem mem_expand_foldl (table : List (String × List String)) (a : String) :
    ∀ (l : List String) (init : List String),
      (a ∈ l.foldl (fun out v => out ++ tableGet table (pyLower (pyStrip v)) ++ [v]) init
        ↔ a ∈ init ∨ ∃ t ∈ l, a ∈ tableGet table (pyLower (pyStrip t)) ∨ a = t) := by
  intro l
  induction l with
  | nil => intro init; simp
  | cons x xs ih =>
    intro init
    simp only [List.foldl_cons]
    rw [ih]
    constructor
    · rintro (h | ⟨t, ht, h⟩)
      · rcases List.mem_append.mp h with h2 | h2
        · rcases List.mem_append.mp h2 with h3 | h3
          · exact Or.inl h3
          · exact Or.inr ⟨x, List.mem_cons_self x xs, Or.inl h3⟩
        · exact Or.inr ⟨x, List.mem_cons_self x xs, Or.inr (List.mem_singleton.mp h2)⟩
      · exact Or.inr ⟨t, List.mem_cons_of_mem x ht, h⟩
    · rintro (h | ⟨t, ht, h⟩)
      · exact Or.inl (List.mem_append.mpr (Or.inl (List.mem_append.mpr (Or.inl h))))
      · rcases List.mem_cons.mp ht with rfl | ht2
        · rcases h with h | h
          · exact Or.inl (List.mem_append.mpr (Or.inl (List.mem_append.mpr (Or.inr h))))
          · exact Or.inl (List.mem_append.mpr (Or.inr (List.mem_singleton.mpr h)))
        · exact Or.inr ⟨t, ht2, h⟩

/-- Membership in `expand` over a term list is membership in the expansion
of one of its terms. -/
theorem expand_mem_iff (values : List String) (table : List (String × List String))
    (a : String) :
    a ∈ expand values table ↔ ∃ t ∈ values, a ∈ expand [t] table := by
  rw [expand, mem_expand_foldl]
  simp only [List.not_mem_nil, false_or]
  constructor
  · rintro ⟨t, ht, h⟩
    exact ⟨t, ht, by rw [expand_single]; simpa [List.mem_append] using h⟩
  · rintro ⟨t, ht, h⟩
    rw [expand_single] at h
    exact ⟨t, ht, by simpa [List.mem_append] using h⟩

/-- The `$map` body of `tools.py`'s experience fallback converts a missing
field path for every element, so the `$sum` is zero on every record. -/
theorem sumMapDurationsTools_eq_zero (r : Resume) : sumMapDurationsTools r = 0 := by
  unfold sumMapDurationsTools
  generalize r.jobExperiences = l
  induction l with
  | nil => rfl
  | cons a t ih => simpa [jobFieldDuration, convertDurationOpt] using ih

/-! ### Claim theorems -/

/-- Claim C1 (confirmed): every record in the ranked `results` of
`query_db` has a `resumeId` drawn from the candidate pool, whatever
identifier list the scoring oracle returns; foreign identifiers are
discarded by the filter. -/
theorem c1_ranked_ids_in_pool (candidates : List Resume) (best_ids : List String)
    (r : Resume) (h : r ∈ bestResumes candidates best_ids) :
    r.resumeId ∈ candidates.map (·.resumeId) := by
  have hr : r ∈ candidates := List.mem_of_mem_filter h
  exact List.mem_map_of_mem _ hr

/-- Witness for C1 at a concrete pool and a concrete oracle list that also
names a foreign identifier. -/
theorem c1_ranked_ids_in_pool_witness :
    ("r1" : String) ∈ [mkRes "r1", mkRes "r2"].map (·.resumeId) :=
  c1_ranked_ids_in_pool [mkRes "r1", mkRes "r2"] ["ghost", "r1"] (mkRes "r1") (by decide)

/-- Claim C3 counterexample: with one candidate in the pool, an unparsable
oracle reply makes `query_db` return the `{"error": ...}` dict — an error
result is surfaced, not an empty ranked result as the claim states. -/
theorem c3_counterexample :
    handleOracleReply OracleReply.unparsable [mkRes "r1"] = QueryOutcome.errorResult
      ∧ handleOracleReply OracleReply.unparsable [mkRes "r1"] ≠ QueryOutcome.ok [] := by
  refine ⟨rfl, ?_⟩
  decide

/-- Claim C3 (amended): a parsable oracle reply lacking `top_resume_ids`
degrades to an empty ranked result, but an unparsable reply is caught and
surfaced as the error dict (`query_db` does not raise). -/
theorem c3_amended_oracle_degrade (candidates : List Resume) :
    handleOracleReply (OracleReply.parsed none) candidates = QueryOutcome.ok []
      ∧ handleOracleReply OracleReply.unparsable candidates = QueryOutcome.errorResult := by
  constructor
  · simp [handleOracleReply, bestResumes]
  · rfl

/-- Claim C4 counterexample: for the term "Java" (not a table key),
`expand` returns only the original string "Java"; the lower-cased trimmed
form "java" is absent. -/
theorem c4_counterexample :
    pyLower (pyStrip "Java") = "java"
      ∧ expand ["Java"] SKILL_VARIANTS = ["Java"]
      ∧ ¬ ("java" ∈ expand ["Java"] SKILL_VARIANTS) := by
  refine ⟨by decide, by decide, by decide⟩

/-- Claim C4 (amended): `expand([t], table)` always contains the original
term `t` itself — not its lower-cased trimmed form — including when `t` is
not a key; the trimmed-lowercased form only serves as the lookup key, and
every alias listed under it is included. -/
theorem c4_amended_expand_contains_original (t : String)
    (table : List (String × List String)) :
    t ∈ expand [t] table
      ∧ (∀ a, a ∈ tableGet table (pyLower (pyStrip t)) → a ∈ expand [t] table) := by
  constructor
  · simp [expand]
  · intro a ha
    simp [expand]
    exact Or.inl ha

/-- Witness for C4 (amended) at the term " SQL " over `SKILL_VARIANTS`. -/
theorem c4_amended_expand_contains_original_witness :
    (" SQL " : String) ∈ expand [" SQL "] SKILL_VARIANTS
      ∧ ("mysql" : String) ∈ expand [" SQL "] SKILL_VARIANTS :=
  ⟨(c4_amended_expand_contains_original " SQL " SKILL_VARIANTS).1,
   (c4_amended_expand_contains_original " SQL " SKILL_VARIANTS).2 "mysql" (by decide)⟩

/-- Claim C9 counterexample: with eleven candidates in the pool and an
oracle reply listing all eleven identifiers, `query_db` returns eleven
records — nothing truncates the ranked result to ten. -/
theorem c9_counterexample :
    (bestResumes
        (["a1","a2","a3","a4","a5","a6","a7","a8","a9","a10","a11"].map mkRes)
        ["a1","a2","a3","a4","a5","a6","a7","a8","a9","a10","a11"]).length = 11
      ∧ ¬ ((bestResumes
        (["a1","a2","a3","a4","a5","a6","a7","a8","a9","a10","a11"].map mkRes)
        ["a1","a2","a3","a4","a5","a6","a7","a8","a9","a10","a11"]).length ≤ 10) := by
  refine ⟨by decide, by decide⟩

/-- Claim C9 (amended): the ranked result is bounded by the size of the
candidate pool (itself capped server-side at retrieval), but the ≤10 bound
is only requested of the oracle in the prompt, never enforced on its
reply. -/
theorem c9_amended_bounded_by_pool (candidates : List Resume) (best_ids : List String) :
    (bestResumes candidates best_ids).length ≤ candidates.length :=
  List.length_filter_le _ _

/-- Claim C10 (confirmed): `get_job_match_counts` returns one entry per
requested identifier in input order (duplicates included), pairing each
identifier with the length of its stored `matches` array — zero when no
document exists — and `results_count` is the number of inputs. -/
theorem c10_job_match_counts (store : String → Option MatchDoc)
    (resume_ids : List String) :
    (get_job_match_counts store resume_ids).length = resume_ids.length
      ∧ (∀ i : ℕ, (get_job_match_counts store resume_ids)[i]? =
          (resume_ids[i]?).map (fun rid => (rid, jobsMatchedOf store rid)))
      ∧ (∀ rid, store rid = none → jobsMatchedOf store rid = 0)
      ∧ (∀ rid d, store rid = some d →
          jobsMatchedOf store rid = (d.matchesArr.getD []).length) := by
  refine ⟨List.length_map _ _, fun i => ?_, fun rid h => ?_, fun rid d h => ?_⟩
  · simp [get_job_match_counts]
  · simp [jobsMatchedOf, h]
  · simp [jobsMatchedOf, h]

/-- Claim C2 counterexample: the record with job durations
["2", "bad", null] (intended total 2.0, per the correctly-written
summation in `app1.py`) and no stored `totalExperience`, against bound 2:
`tools.py`'s min-experience clause excludes it, because its `$map` body
reads the single-dollar field path `"$job.duration"` (missing on the
document — the map variable would be `$$job`), so the fallback sums zeros;
`app.py`'s clause converts only the first duration, excluding the
sum-3 record `recDur12` at bound 3, and aborts with an error when the
first duration is non-numeric — against the claim's "never raising". -/
theorem c2_counterexample :
    totalDurations [DurVal.str "2", DurVal.str "bad", DurVal.null] = 2
      ∧ sumMapDurationsTools recBad2 = 0
      ∧ evalMinExpTools 2 recBad2 = false
      ∧ totalDurations (recDur12.jobExperiences.map (·.duration)) = 3
      ∧ evalMinExpApp 3 recDur12 = Except.ok false
      ∧ evalMinExpApp 2 recBadFirst = Except.error () := by
  refine ⟨?_, sumMapDurationsTools_eq_zero recBad2, ?_, ?_, ?_, ?_⟩
  · simp [totalDurations, convertDuration, ifNullZeroStr, parseDecimal]
  · simp [evalMinExpTools, recBad2, sumMapDurationsTools, jobFieldDuration,
      convertDurationOpt]
  · simp [totalDurations, convertDuration, ifNullZeroStr, parseDecimal, recDur12]
    norm_num
  · simp [evalMinExpApp, recDur12, parseDecimal]
  · simp [evalMinExpApp, recBadFirst, parseDecimal]

/-- Claim C2 (amended): `tools.py`'s experience clauses never raise, but
their `$map` fallback reads the missing single-dollar `"$job.duration"`
field path instead of the `$$job` map variable, so it sums zeros on every
record: for a positive bound the min clause reduces to the stored
`totalExperience` comparison and the max clause is trivially true — the
duration sum never decides exclusion.  The claimed tolerant summation of
all job durations is implemented only by `app1.py`'s `search_resumes`,
where ["2", "bad", null] totals 2.0 and the bound-2 record is admitted
without error; `app.py`'s `query_db` instead compares only the first job
duration and raises on a non-numeric one. -/
theorem c2_amended_experience_sum (m : ℚ) (r : Resume) :
    sumMapDurationsTools r = 0
      ∧ (0 < m → (evalMinExpTools m r = true ↔
          ∃ q, r.totalExperience = some q ∧ m ≤ q))
      ∧ (0 < m → evalMaxExpTools m r = true)
      ∧ totalDurations [DurVal.str "2", DurVal.str "bad", DurVal.null] = 2
      ∧ evalMinExpApp1 2 recBad2 = true := by
  refine ⟨sumMapDurationsTools_eq_zero r, fun hm => ?_, fun hm => ?_, ?_, ?_⟩
  · cases hte : r.totalExperience with
    | none =>
      simp [evalMinExpTools, hte, sumMapDurationsTools_eq_zero r]
      exact hm
    | some q =>
      simp [evalMinExpTools, hte, sumMapDurationsTools_eq_zero r]
      intro h
      exact absurd h (not_le.mpr hm)
  · cases hte : r.totalExperience with
    | none => simp [evalMaxExpTools, hte, sumMapDurationsTools_eq_zero r, le_of_lt hm]
    | some q => simp [evalMaxExpTools, hte, sumMapDurationsTools_eq_zero r, le_of_lt hm]
  · simp [totalDurations, convertDuration, ifNullZeroStr, parseDecimal]
  · simp [evalMinExpApp1, recBad2, totalDurations, convertDuration, ifNullZeroStr,
      parseDecimal]

/-- Witness for C2 (amended) at bound 3 on a record whose stored
`totalExperience` is 5. -/
theorem c2_amended_experience_sum_witness :
    sumMapDurationsTools recTot5 = 0
      ∧ evalMinExpTools 3 recTot5 = true
      ∧ evalMaxExpTools 5 recTot5 = true := by
  have h3 := c2_amended_experience_sum 3 recTot5
  have h5 := c2_amended_experience_sum 5 recTot5
  exact ⟨h3.1, (h3.2.1 (by norm_num)).mpr ⟨5, rfl, by norm_num⟩,
    h5.2.2.1 (by norm_num)⟩

/-- Claim C5 counterexample: with requested titles ["software developer",
"backend developer"], a record holding only "backend developer" is
admitted by the single merged `$in` clause `app.py`'s `query_db` compiles
(lines 206-209), although it fails the "software developer" title group —
the compiled filter does not require every requested title group. -/
theorem c5_counterexample :
    evalTitleFilterApp recBackendOnly ["software developer", "backend developer"] = true
      ∧ evalTitleFilterTools recBackendOnly ["software developer", "backend developer"]
          = false
      ∧ ¬ ("backend developer" ∈ expand ["software developer"] TITLE_VARIANTS) := by
  refine ⟨by decide, by decide, by decide⟩

/-- Claim C5 (amended): `tools.py`'s `query_db` compiles one clause per
requested title and appends them all to the query's `$and`, so its filter
holds exactly when every requested title group is satisfied by some held
job title among that title's aliases; `app.py`'s `query_db` merges all
titles into one `$in` clause, so its filter holds exactly when some single
requested title group is satisfied. -/
theorem c5_amended_title_policy (r : Resume) (job_titles : List String) :
    (evalTitleFilterTools r job_titles = true ↔
        ∀ t ∈ job_titles, ∃ j ∈ r.jobExperiences,
          j.title ∈ expand [t] TITLE_VARIANTS)
      ∧ (evalTitleFilterApp r job_titles = true ↔
        ∃ t ∈ job_titles, ∃ j ∈ r.jobExperiences,
          j.title ∈ expand [t] TITLE_VARIANTS) := by
  constructor
  · simp only [evalTitleFilterTools, titleClausesTools, evalTitleClause,
      List.all_eq_true, List.any_eq_true, List.mem_map, List.contains, List.elem_iff]
    constructor
    · intro h t ht
      exact h _ ⟨t, ht, rfl⟩
    · rintro h aliases ⟨t, ht, rfl⟩
      exact h t ht
  · simp only [evalTitleFilterApp, evalTitleClause, List.any_eq_true,
      List.contains, List.elem_iff]
    constructor
    · rintro ⟨j, hj, hmem⟩
      obtain ⟨t, ht, hm⟩ := (expand_mem_iff job_titles TITLE_VARIANTS j.title).mp hmem
      exact ⟨t, ht, j, hj, hm⟩
    · rintro ⟨t, ht, j, hj, hm⟩
      exact ⟨j, hj, (expand_mem_iff job_titles TITLE_VARIANTS j.title).mpr ⟨t, ht, hm⟩⟩

/-- Claim C6 counterexample: the text
"Here are some matches. Experience: solid. Skills: many." contains all
three detection markers but matches neither listing grammar; the result is
nonetheless `is_resume_response = true` with an empty resume list, not the
claimed not-a-listing result. -/
theorem c6_counterexample :
    findAllAux matchP1At exMarkerText.toList = []
      ∧ findAllAux matchP2At exMarkerText.toList = []
      ∧ process_response exMarkerText = ProcessedResponse.listing "" [] "" exMarkerText
      ∧ process_response exMarkerText ≠ ProcessedResponse.notListing exMarkerText := by
  refine ⟨by decide, by decide, by decide, by decide⟩

/-- Claim C6 (amended): when the detection markers are absent the result
marks the text as not a listing and preserves it verbatim; when the
markers are present but neither grammar yields a match, the result is
still a listing (`is_resume_response = true`) with an empty resume list —
and the full original text is preserved verbatim in both cases. -/
theorem c6_amended_detection (text : String) :
    (markersHold text = false →
        process_response text = ProcessedResponse.notListing text)
      ∧ (markersHold text = true → listingMatches text = [] →
          process_response text =
            ProcessedResponse.listing (introTextOf text) [] (conclusionTextOf text)
              text) := by
  constructor
  · intro h
    simp [process_response, h]
  · intro h hm
    simp [process_response, h, hm]

/-- Witness for C6 (amended) on a plain reply and on the marker-bearing
text that matches neither grammar. -/
theorem c6_amended_detection_witness :
    process_response "hello" = ProcessedResponse.notListing "hello"
      ∧ process_response exMarkerText =
          ProcessedResponse.listing (introTextOf exMarkerText) []
            (conclusionTextOf exMarkerText) exMarkerText :=
  ⟨(c6_amended_detection "hello").1 (by decide),
   (c6_amended_detection exMarkerText).2 (by decide) (by decide)⟩

/-- Claim C7 counterexample: `utils.py`'s `attach_hidden_resume_ids` on a
record that already carries `resumeId = "old"` still looks up the natural
key and overwrites both `resumeId` and `keywords` from the stored
document — the record is not left unchanged. -/
theorem c7_counterexample :
    attachHiddenResumeIdsUtils exHiddenStore [exRecWithId]
        = [{ exRecWithId with resumeId := some "new", keywords := ["kw1"] }]
      ∧ attachHiddenResumeIdsUtils exHiddenStore [exRecWithId] ≠ [exRecWithId] := by
  refine ⟨by decide, by decide⟩

/-- Claim C7 (amended): in `utils.py`'s backfill, a record with a falsy
`email` or `contactNo` is untouched; a record whose natural key matches no
stored document is untouched (no error); a record whose key matches a
document keeps every display field and receives the document's `resumeId`
and `keywords` whenever those are truthy — even if the record already had
a `resumeId`.  `app.py`'s variant does skip records that already carry a
truthy `resumeId` (but copies only `resumeId`, never `keywords`). -/
theorem c7_amended_backfill (store : String → String → Option HiddenDoc)
    (res : ParsedRec) :
    (res.email = "" ∨ res.contactNo = "" → attachOneUtils store res = res)
      ∧ (store res.email res.contactNo = none → attachOneUtils store res = res)
      ∧ (∀ doc, store res.email res.contactNo = some doc → res.email ≠ "" →
          res.contactNo ≠ "" →
          (attachOneUtils store res).name = res.name
            ∧ (attachOneUtils store res).email = res.email
            ∧ (attachOneUtils store res).contactNo = res.contactNo
            ∧ (attachOneUtils store res).location = res.location
            ∧ (attachOneUtils store res).experience = res.experience
            ∧ (attachOneUtils store res).skills = res.skills
            ∧ (attachOneUtils store res).resumeId =
                (if truthyStr doc.resumeId then doc.resumeId else res.resumeId)
            ∧ (attachOneUtils store res).keywords =
                (if truthyList doc.keywords then doc.keywords.getD [] else res.keywords))
      ∧ (truthyStr res.resumeId = true → attachOneApp store res = res) := by
  have hnil : ("" : String).isEmpty = true := rfl
  refine ⟨?_, ?_, ?_, ?_⟩
  · intro h
    rcases h with h | h <;> simp [attachOneUtils, h, hnil]
  · intro h
    by_cases hc : (!res.email.isEmpty && !res.contactNo.isEmpty) = true
    · simp [attachOneUtils, hc, h]
    · simp [attachOneUtils, hc]
  · intro doc hdoc he hp
    have he2 : res.email.isEmpty = false := by
      cases hemail : res.email.isEmpty
      · rfl
      · exact absurd ((String.isEmpty_iff res.email).mp hemail) he
    have hp2 : res.contactNo.isEmpty = false := by
      cases hphone : res.contactNo.isEmpty
      · rfl
      · exact absurd ((String.isEmpty_iff res.contactNo).mp hphone) hp
    by_cases h1 : truthyStr doc.resumeId = true
      <;> by_cases h2 : truthyList doc.keywords = true
      <;> simp [attachOneUtils, he2, hp2, hdoc, h1, h2]
  · intro h
    simp [attachOneApp, h]

/-- Witness for C7 (amended) against the one-document example store, at a
falsy-email record, an unmatched record, the matched record and the
app-variant skip. -/
theorem c7_amended_backfill_witness :
    attachOneUtils exHiddenStore { exRecWithId with email := "" }
        = { exRecWithId with email := "" }
      ∧ attachOneUtils exHiddenStore { exRecWithId with email := "b@x.com" }
          = { exRecWithId with email := "b@x.com" }
      ∧ (attachOneUtils exHiddenStore exRecWithId).resumeId = some "new"
      ∧ (attachOneUtils exHiddenStore exRecWithId).keywords = ["kw1"]
      ∧ attachOneApp exHiddenStore exRecWithId = exRecWithId := by
  refine ⟨?_, ?_, ?_, ?_, ?_⟩
  · exact (c7_amended_backfill exHiddenStore { exRecWithId with email := "" }).1
      (Or.inl rfl)
  · exact (c7_amended_backfill exHiddenStore
      { exRecWithId with email := "b@x.com" }).2.1 (by decide)
  · have h := (c7_amended_backfill exHiddenStore exRecWithId).2.2.1
      { resumeId := some "new", keywords := some ["kw1"] } (by decide)
      (by decide) (by decide)
    rw [h.2.2.2.2.2.2.1]
    decide
  · have h := (c7_amended_backfill exHiddenStore exRecWithId).2.2.1
      { resumeId := some "new", keywords := some ["kw1"] } (by decide)
      (by decide) (by decide)
    rw [h.2.2.2.2.2.2.2]
    decide
  · exact (c7_amended_backfill exHiddenStore exRecWithId).2.2.2 (by decide)

/-- Claim C8 counterexample: against a session index whose first key
"Johnny Smith" matches "john" only as a substring while the later key
"John" matches exactly, `app.py`'s single-pass lookup returns the
substring match "r2" — exact session matches do not take precedence over
substring ones — whereas the claimed precedence (implemented by
`tools.py`) selects "r1". -/
theorem c8_counterexample :
    getResumeIdByNameApp true exNameIdx [] "john" = NameLookup.found "Johnny Smith" "r2"
      ∧ firstExact (normName "john") exNameIdx = some ("John", "r1")
      ∧ getResumeIdByNameTools true exNameIdx [] "john" = NameLookup.found "John" "r1" := by
  refine ⟨by decide, by decide, by decide⟩

/-- Claim C8 (amended): `tools.py`'s `get_resume_id_by_name` resolves a
name by the precedence order: first exact session-index match, else first
substring session-index match, else the store lookup; in particular
"john" against an index containing only "John Smith" resolves to its
identifier via substring match.  `app.py`'s variant instead returns the
first index key matching exactly OR as a substring, so an earlier
substring match beats a later exact match. -/
theorem c8_amended_precedence (idx : List (String × String))
    (store : List StoreNameDoc) (name : String) :
    (∀ k v, firstExact (normName name) idx = some (k, v) →
        getResumeIdByNameTools true idx store name = NameLookup.found k v)
      ∧ (firstExact (normName name) idx = none →
          ∀ k v, firstSub (normName name) idx = some (k, v) →
            getResumeIdByNameTools true idx store name = NameLookup.found k v)
      ∧ (firstExact (normName name) idx = none →
          firstSub (normName name) idx = none →
          getResumeIdByNameTools true idx store name = storeNameResult name store) := by
  refine ⟨?_, ?_, ?_⟩
  · intro k v h
    simp [getResumeIdByNameTools, h]
  · intro h k v h2
    simp [getResumeIdByNameTools, h, h2]
  · intro h h2
    simp [getResumeIdByNameTools, h, h2]

/-- Witness for C8 (amended): the spec scenario — "john" against the index
{"John Smith": "r1"} with an empty store resolves to "r1" through the
substring pass. -/
theorem c8_amended_precedence_witness :
    getResumeIdByNameTools true [("John Smith", "r1")] [] "john" =
      NameLookup.found "John Smith" "r1" :=
  (c8_amended_precedence [("John Smith", "r1")] [] "john").2.1 (by decide)
    "John Smith" "r1" (by decide)

/-- Witness for C10 on a duplicated identifier list over a two-document
store. -/
theorem c10_job_match_counts_witness :
    (get_job_match_counts
        (fun rid => if rid = "x" then some { matchesArr := some ["j1", "j2"] } else none)
        ["x", "y", "x"]).length = 3
      ∧ (get_job_match_counts
        (fun rid => if rid = "x" then some { matchesArr := some ["j1", "j2"] } else none)
        ["x", "y", "x"])[1]? = some ("y", 0)
      ∧ jobsMatchedOf
        (fun rid => if rid = "x" then some { matchesArr := some ["j1", "j2"] } else none)
        "y" = 0 := by
  have h := c10_job_match_counts
    (fun rid => if rid = "x" then some { matchesArr := some ["j1", "j2"] } else none)
    ["x", "y", "x"]
  refine ⟨h.1, ?_, h.2.2.1 "y" (by decide)⟩
  have h2 := h.2.1 1
  simpa [jobsMatchedOf] using h2

end ZappBot
